import Mathlib

/-!
Verification of the plan-store REST API (Express + Redis, `src/unnamed/part_001`).

The development embeds the current revision of the server (`part_001`):
the SHA-1 entity-tag generator (`generateETag`, lines 46-48), the ajv plan
schema (`schema.js`), the five route handlers (POST/PUT/GET/PATCH/DELETE,
lines 53-200), and the Redis key-value interface they use.

Modelling conventions:
* Machine words are `Nat` with explicit `% 2^32` reductions, matching the
  32-bit arithmetic of SHA-1.
* JSON documents are the inductive `JValue`; JSON numbers are modelled as
  integers (no claim depends on float formatting).
* Redis stores the string `JSON.stringify(doc)`; every value ever written by
  the handlers is such an image, and every read either hashes the raw string
  or applies `JSON.parse` to it.  We therefore represent a stored value by
  its parsed document and apply `jsonStringify` at exactly the places where
  the code computes on the raw string (ETag computation), so `JSON.parse` of
  a stored value is the stored document itself.
* `stringifyF` recurses on an explicit fuel; `jsonStringify` supplies `2^64`,
  far beyond the recursion depth at which V8's `JSON.stringify` itself
  throws, so the fuel is never exhausted on representable documents.
-/

namespace PlanApi

/-! ### Tag generator: `generateETag` (part_001 lines 46-48)

`crypto.createHash('sha1').update(data).digest('hex')`: the SHA-1 digest of
the UTF-8 bytes of `data`, rendered as 40 lowercase hex characters. -/

def pow32 : Nat := 4294967296

def rotl32 (n x : Nat) : Nat :=
  ((x <<< n) ||| (x >>> (32 - n))) % pow32

def beWord (b0 b1 b2 b3 : Nat) : Nat :=
  b0 * 16777216 + b1 * 65536 + b2 * 256 + b3

def chunkWords : List Nat → List Nat
  | b0 :: b1 :: b2 :: b3 :: rest => beWord b0 b1 b2 b3 :: chunkWords rest
  | _ => []

/-- Extends the 16 message-schedule words of a SHA-1 block to 80. -/
def extendW (fuel : Nat) (w : List Nat) : List Nat :=
  match fuel with
  | 0 => w
  | fuel + 1 =>
    let n := w.length
    let x := rotl32 1 ((w.getD (n - 3) 0) ^^^ (w.getD (n - 8) 0) ^^^
                      (w.getD (n - 14) 0) ^^^ (w.getD (n - 16) 0))
    extendW fuel (w ++ [x])

abbrev Sha1State := Nat × Nat × Nat × Nat × Nat

def sha1F (i b c d : Nat) : Nat :=
  if i < 20 then (b &&& c) ||| ((b ^^^ (pow32 - 1)) &&& d)
  else if i < 40 then b ^^^ c ^^^ d
  else if i < 60 then (b &&& c) ||| (b &&& d) ||| (c &&& d)
  else b ^^^ c ^^^ d

def sha1K (i : Nat) : Nat :=
  if i < 20 then 1518500249
  else if i < 40 then 1859775393
  else if i < 60 then 2400959708
  else 3395469782

def sha1RoundStep (w : List Nat) (st : Sha1State) (i : Nat) : Sha1State :=
  let temp := (rotl32 5 st.1 + sha1F i st.2.1 st.2.2.1 st.2.2.2.1 + st.2.2.2.2 +
               sha1K i + w.getD i 0) % pow32
  (temp, st.1, rotl32 30 st.2.1, st.2.2.1, st.2.2.2.1)

def sha1Compress (chunk : List Nat) (h : Sha1State) : Sha1State :=
  let w := extendW 64 (chunkWords chunk)
  let r := (List.range 80).foldl (sha1RoundStep w) h
  ((h.1 + r.1) % pow32, (h.2.1 + r.2.1) % pow32, (h.2.2.1 + r.2.2.1) % pow32,
   (h.2.2.2.1 + r.2.2.2.1) % pow32, (h.2.2.2.2 + r.2.2.2.2) % pow32)

def sha1Loop (fuel : Nat) (msg : List Nat) (h : Sha1State) : Sha1State :=
  match fuel, msg with
  | _, [] => h
  | 0, _ => h
  | fuel + 1, msg => sha1Loop fuel (msg.drop 64) (sha1Compress (msg.take 64) h)

def beBytes (k n : Nat) : List Nat :=
  (List.range k).map (fun i => n / 256 ^ (k - 1 - i) % 256)

/-- Merkle-Damgard padding: a 0x80 byte, zeros to 56 mod 64, and the
64-bit big-endian bit length. -/
def sha1Pad (msg : List Nat) : List Nat :=
  let L := msg.length
  let r := (L + 1) % 64
  let z := if r ≤ 56 then 56 - r else 120 - r
  msg ++ [128] ++ List.replicate z 0 ++ beBytes 8 ((8 * L) % 18446744073709551616)

def sha1Init : Sha1State := (1732584193, 4023233417, 2562383102, 271733878, 3285377520)

/-- The five 32-bit words of the SHA-1 digest of a byte sequence. -/
def sha1Tuple (msg : List Nat) : Sha1State :=
  let padded := sha1Pad msg
  sha1Loop padded.length padded sha1Init

def hexDigitChar (n : Nat) : Char :=
  if n < 10 then Char.ofNat (48 + n) else Char.ofNat (87 + n)

/-- Eight lowercase hex characters of a 32-bit word, most significant first. -/
def toHex8 (x : Nat) : List Char :=
  [hexDigitChar (x / 268435456 % 16), hexDigitChar (x / 16777216 % 16),
   hexDigitChar (x / 1048576 % 16), hexDigitChar (x / 65536 % 16),
   hexDigitChar (x / 4096 % 16), hexDigitChar (x / 256 % 16),
   hexDigitChar (x / 16 % 16), hexDigitChar (x % 16)]

def digestHex (h : Sha1State) : String :=
  String.mk (toHex8 h.1 ++ toHex8 h.2.1 ++ toHex8 h.2.2.1 ++
             toHex8 h.2.2.2.1 ++ toHex8 h.2.2.2.2)

/-- UTF-8 encoding of one character (Node hashes the UTF-8 bytes of the
string passed to `update`). -/
def utf8Bytes (c : Char) : List Nat :=
  let n := c.toNat
  if n < 128 then [n]
  else if n < 2048 then [192 + n / 64, 128 + n % 64]
  else if n < 65536 then [224 + n / 4096, 128 + n / 64 % 64, 128 + n % 64]
  else [240 + n / 262144, 128 + n / 4096 % 64, 128 + n / 64 % 64, 128 + n % 64]

def strBytes (s : String) : List Nat :=
  (s.data.map utf8Bytes).flatten

/-- `generateETag` (part_001 lines 46-48): lowercase hex SHA-1 of the
argument string's bytes. -/
def generateETag (data : String) : String :=
  digestHex (sha1Tuple (strBytes data))

/-! ### JSON documents -/

/-- A JSON value as delivered by `body-parser` / stored via `JSON.stringify`.
Numbers are modelled as integers. -/
inductive JValue where
  | null : JValue
  | bool (b : Bool) : JValue
  | num (n : Int) : JValue
  | str (s : String) : JValue
  | arr (xs : List JValue) : JValue
  | obj (fields : List (String × JValue)) : JValue

def hexU4 (n : Nat) : List Char :=
  ['\\', 'u', '0', '0', hexDigitChar (n / 16), hexDigitChar (n % 16)]

/-- The escape `JSON.stringify` applies to one character of a string. -/
def escapeChar (c : Char) : List Char :=
  if c = '\x22' then ['\\', '\x22']
  else if c = '\\' then ['\\', '\\']
  else if c.toNat = 8 then ['\\', 'b']
  else if c.toNat = 9 then ['\\', 't']
  else if c.toNat = 10 then ['\\', 'n']
  else if c.toNat = 12 then ['\\', 'f']
  else if c.toNat = 13 then ['\\', 'r']
  else if c.toNat < 32 then hexU4 c.toNat
  else [c]

def jsonQuote (s : String) : String :=
  String.mk ('\x22' :: (s.data.map escapeChar).flatten ++ ['\x22'])

/-- `JSON.stringify` (no spacing argument), recursing on explicit fuel. -/
def stringifyF : Nat → JValue → String
  | _, JValue.null => "null"
  | _, JValue.bool true => "true"
  | _, JValue.bool false => "false"
  | _, JValue.num n => toString n
  | _, JValue.str s => jsonQuote s
  | 0, JValue.arr _ => ""
  | 0, JValue.obj _ => ""
  | fuel + 1, JValue.arr xs =>
      "[" ++ String.intercalate (",") (xs.map (stringifyF fuel)) ++ "]"
  | fuel + 1, JValue.obj fs =>
      "\x7b" ++
        String.intercalate (",")
          (fs.map (fun kv => jsonQuote kv.1 ++ (":") ++ stringifyF fuel kv.2)) ++
      "\x7d"

/-- `JSON.stringify(v)`.  The fuel `2^64` exceeds any nesting depth V8 can
serialize (it throws a `RangeError` around depth 10^4), so it is never
exhausted on a representable document. -/
def jsonStringify (v : JValue) : String := stringifyF 18446744073709551616 v

/-! ### JavaScript object primitives used by the handlers -/

/-- Property lookup on a JS object's field list (keys are unique in any
object produced by `JSON.parse` / `body-parser`; lookup takes the first
occurrence). -/
def objGet : List (String × JValue) → String → Option JValue
  | [], _ => none
  | (k', v) :: rest, k => if k' = k then some v else objGet rest k

/-- The own enumerable properties a value contributes under object spread:
objects give their fields, arrays and strings give index-keyed elements,
primitives give nothing. -/
def ownFields : JValue → List (String × JValue)
  | JValue.obj fs => fs
  | JValue.arr xs => xs.enum.map (fun p => (toString p.1, p.2))
  | JValue.str s => s.data.enum.map (fun p => (toString p.1, JValue.str (String.mk [p.2])))
  | _ => []

/-- Field list of the JS spread `{ ...p, ...u }`: `p`'s keys in order with
`u`'s value where `u` also has the key, then `u`'s remaining keys in order. -/
def mergeFields (p u : List (String × JValue)) : List (String × JValue) :=
  p.map (fun kv => match objGet u kv.1 with | some v => (kv.1, v) | none => kv) ++
  u.filter (fun kv => (objGet p kv.1).isNone)

/-- `{ ...planData, ...updates }` (part_001 line 156): the shallow merge the
PATCH handler builds. -/
def jsMerge (p u : JValue) : JValue :=
  JValue.obj (mergeFields (ownFields p) (ownFields u))

/-! ### Schema validation: ajv compiled against `planSchema` (schema.js)

ajv with this schema accepts exactly: an object whose required keys are all
present, whose present keys have the declared types, and which has no keys
outside `properties` (`additionalProperties: false`). -/

def isNumV : Option JValue → Bool
  | some (JValue.num _) => true
  | _ => false

def isStrV : Option JValue → Bool
  | some (JValue.str _) => true
  | _ => false

def costShareKeys : List String :=
  ["deductible", "_org", "copay", "objectId", "objectType"]

/-- The `planCostShares` / `planserviceCostShares` subschema. -/
def validCostShares (v : JValue) : Bool :=
  match v with
  | JValue.obj fs =>
      isNumV (objGet fs ("deductible")) && isStrV (objGet fs ("_org")) &&
      isNumV (objGet fs ("copay")) && isStrV (objGet fs ("objectId")) &&
      isStrV (objGet fs ("objectType")) &&
      fs.all (fun kv => costShareKeys.contains kv.1)
  | _ => false

def linkedServiceKeys : List String := ["_org", "objectId", "objectType", "name"]

def validLinkedService (v : JValue) : Bool :=
  match v with
  | JValue.obj fs =>
      isStrV (objGet fs ("_org")) && isStrV (objGet fs ("objectId")) &&
      isStrV (objGet fs ("objectType")) && isStrV (objGet fs ("name")) &&
      fs.all (fun kv => linkedServiceKeys.contains kv.1)
  | _ => false

def planServiceKeys : List String :=
  ["linkedService", "planserviceCostShares", "_org", "objectId", "objectType"]

def validPlanService (v : JValue) : Bool :=
  match v with
  | JValue.obj fs =>
      (match objGet fs ("linkedService") with
       | some x => validLinkedService x
       | none => false) &&
      (match objGet fs ("planserviceCostShares") with
       | some x => validCostShares x
       | none => false) &&
      isStrV (objGet fs ("_org")) && isStrV (objGet fs ("objectId")) &&
      isStrV (objGet fs ("objectType")) &&
      fs.all (fun kv => planServiceKeys.contains kv.1)
  | _ => false

def planKeys : List String :=
  ["planCostShares", "linkedPlanServices", "_org", "objectId", "objectType",
   "planType", "creationDate"]

/-- `validatePlan = ajv.compile(planSchema)` (part_001 line 50). -/
def validatePlan (v : JValue) : Bool :=
  match v with
  | JValue.obj fs =>
      (match objGet fs ("planCostShares") with
       | some x => validCostShares x
       | none => false) &&
      (match objGet fs ("linkedPlanServices") with
       | some (JValue.arr xs) => xs.all validPlanService
       | _ => false) &&
      isStrV (objGet fs ("_org")) && isStrV (objGet fs ("objectId")) &&
      isStrV (objGet fs ("objectType")) && isStrV (objGet fs ("planType")) &&
      isStrV (objGet fs ("creationDate")) &&
      fs.all (fun kv => planKeys.contains kv.1)
  | _ => false

/-- `data.planCostShares.objectId` (part_001 line 61): `none` models the
paths on which the JS expression is `undefined` or throws; validation
guarantees `some`. -/
def getPlanObjectId (d : JValue) : Option String :=
  match d with
  | JValue.obj fs =>
      match objGet fs ("planCostShares") with
      | some (JValue.obj cs) =>
          match objGet cs ("objectId") with
          | some (JValue.str s) => some s
          | _ => none
      | _ => none
  | _ => none

/-! ### The Redis store

`redisClient.get/set/del`.  A stored value is the string
`JSON.stringify(doc)`; we represent it by `doc` (see the header comment). -/

abbrev Store := List (String × JValue)

def redisGet : Store → String → Option JValue
  | [], _ => none
  | (k', v) :: rest, k => if k' = k then some v else redisGet rest k

def redisSet : Store → String → JValue → Store
  | [], k, v => [(k, v)]
  | (k', v') :: rest, k, v =>
      if k' = k then (k, v) :: rest else (k', v') :: redisSet rest k v

/-- `redisClient.del(key)`: removes the key and reports how many keys were
deleted (0 or 1). -/
def redisDel (st : Store) (k : String) : Store × Nat :=
  if (redisGet st k).isSome then (st.filter (fun kv => kv.1 != k), 1) else (st, 0)

/-! ### HTTP responses and the five handlers (part_001 lines 53-200) -/

/-- The JSON body a handler sends: `{errors: validatePlan.errors}`,
`{message: m}`, `{error: m}`, `{message: m, data: d}`, or a bare document. -/
inductive RespBody where
  | errors : RespBody
  | message (m : String) : RespBody
  | errMessage (m : String) : RespBody
  | messageData (m : String) (d : JValue) : RespBody
  | doc (d : JValue) : RespBody

structure Response where
  status : Nat
  etag : Option String
  body : Option RespBody

/-- POST `/api/v1/plans` (part_001 lines 53-78).  `none` models the uncaught
`TypeError` when `data.planCostShares` is not an object carrying a string
`objectId`; validation rules that out. -/
def postPlan (st : Store) (data : JValue) : Option (Response × Store) :=
  if validatePlan data = false then
    some ({ status := 400, etag := none, body := some RespBody.errors }, st)
  else
    match getPlanObjectId data with
    | none => none
    | some objectId =>
      match redisGet st objectId with
      | some existing =>
          some ({ status := 409, etag := none,
                  body := some (RespBody.messageData ("Conflict: Plan already exists") existing) },
                st)
      | none =>
          let st' := redisSet st objectId data
          let etag := generateETag (jsonStringify data)
          some ({ status := 201, etag := some etag,
                  body := some (RespBody.messageData ("Plan created") data) }, st')

/-- PUT `/api/v1/plans/:objectId` (part_001 lines 81-109).  Note the order:
schema validation (line 85) runs before the store is consulted, and the
`If-Match` comparison is `req.headers['if-match'] !== currentETag`, which an
absent header always fails. -/
def putPlan (st : Store) (objectId : String) (ifMatch : Option String)
    (newData : JValue) : Response × Store :=
  if validatePlan newData = false then
    ({ status := 400, etag := none, body := some RespBody.errors }, st)
  else
    match redisGet st objectId with
    | none =>
        ({ status := 404, etag := none,
           body := some (RespBody.message ("Not Found: Plan does not exist")) }, st)
    | some existing =>
        let currentETag := generateETag (jsonStringify existing)
        if ifMatch ≠ some currentETag then
          ({ status := 412, etag := none,
             body := some (RespBody.errMessage ("Precondition Failed: ETag does not match")) }, st)
        else
          let st' := redisSet st objectId newData
          let etag := generateETag (jsonStringify newData)
          ({ status := 200, etag := some etag,
             body := some (RespBody.messageData ("Plan replaced") newData) }, st')

/-- GET `/api/v1/plans/:objectId` (part_001 lines 113-135). -/
def getPlan (st : Store) (objectId : String) (ifNoneMatch : Option String) :
    Response × Store :=
  match redisGet st objectId with
  | none =>
      ({ status := 404, etag := none,
         body := some (RespBody.message ("Not Found: Plan not found")) }, st)
  | some plan =>
      let etag := generateETag (jsonStringify plan)
      if ifNoneMatch = some etag then
        ({ status := 304, etag := none, body := none }, st)
      else
        ({ status := 200, etag := some etag, body := some (RespBody.doc plan) }, st)

/-- PATCH `/api/v1/plans/:objectId` (part_001 lines 138-170): lookup, ETag
precondition, shallow merge, re-validate, then write. -/
def patchPlan (st : Store) (objectId : String) (ifMatch : Option String)
    (updates : JValue) : Response × Store :=
  match redisGet st objectId with
  | none =>
      ({ status := 404, etag := none,
         body := some (RespBody.message ("Not Found: Plan does not exist")) }, st)
  | some plan =>
      let currentETag := generateETag (jsonStringify plan)
      if ifMatch ≠ some currentETag then
        ({ status := 412, etag := none,
           body := some (RespBody.errMessage ("Precondition Failed: ETag does not match")) }, st)
      else
        let updatedPlan := jsMerge plan updates
        if validatePlan updatedPlan = false then
          ({ status := 400, etag := none, body := some RespBody.errors }, st)
        else
          let st' := redisSet st objectId updatedPlan
          let etag := generateETag (jsonStringify updatedPlan)
          ({ status := 200, etag := some etag,
             body := some (RespBody.messageData ("Plan updated") updatedPlan) }, st')

/-- DELETE `/api/v1/plans/:objectId` (part_001 lines 173-200).  The request
may carry both conditional headers; the handler reads only
`req.headers['if-none-match']` (line 185) — the `If-Match` header is accepted
but never consulted. -/
def deletePlan (st : Store) (objectId : String)
    (_ifMatch ifNoneMatch : Option String) : Response × Store :=
  match redisGet st objectId with
  | none =>
      ({ status := 404, etag := none,
         body := some (RespBody.message ("Not Found: Plan not found")) }, st)
  | some plan =>
      let etag := generateETag (jsonStringify plan)
      if ifNoneMatch.isSome && decide (ifNoneMatch ≠ some etag) then
        ({ status := 412, etag := none,
           body := some (RespBody.errMessage ("Precondition Failed: ETag does not match")) }, st)
      else
        let del := redisDel st objectId
        if del.2 = 0 then
          ({ status := 404, etag := none,
             body := some (RespBody.message ("Not Found: Plan not found")) }, del.1)
        else
          ({ status := 204, etag := none, body := none }, del.1)

/-! ### Ambient process state, for the purity of the tag generator -/

/-- State a non-pure tag generator could observe: wall clock, RNG seed,
process identity (changed by a restart). -/
structure ProcessState where
  clock : Nat
  rngSeed : Nat
  bootCount : Nat

/-- The tag computation of part_001 lines 46-48 with the ambient process
state made explicit: the body reads no clock, seed, or process identity. -/
def generateETagIn (_σ : ProcessState) (data : String) : String :=
  digestHex (sha1Tuple (strBytes data))

/-! ### Concrete example documents (shape from the assignment's use case) -/

def csEx : JValue :=
  JValue.obj [("deductible", JValue.num 2000), ("_org", JValue.str ("example.com")),
    ("copay", JValue.num 23), ("objectId", JValue.str ("1234vxc2324sdf-501")),
    ("objectType", JValue.str ("membercostshare"))]

def planKeyEx : String := "1234vxc2324sdf-501"

def planEx : JValue :=
  JValue.obj [("planCostShares", csEx), ("linkedPlanServices", JValue.arr []),
    ("_org", JValue.str ("example.com")),
    ("objectId", JValue.str ("12xvxc345ssdsds-508")),
    ("objectType", JValue.str ("plan")), ("planType", JValue.str ("inNetwork")),
    ("creationDate", JValue.str ("12-12-2017"))]

/-- A second valid plan, differing from `planEx` in `planType`. -/
def planEx2 : JValue :=
  JValue.obj [("planCostShares", csEx), ("linkedPlanServices", JValue.arr []),
    ("_org", JValue.str ("example.com")),
    ("objectId", JValue.str ("12xvxc345ssdsds-508")),
    ("objectType", JValue.str ("plan")), ("planType", JValue.str ("outOfNetwork")),
    ("creationDate", JValue.str ("12-12-2017"))]

/-- An update body that makes the merged document schema-invalid
(`planType` becomes a number). -/
def badPatchEx : JValue := JValue.obj [("planType", JValue.num 0)]

set_option maxRecDepth 1000000

/-! ### Lookup lemmas for JS objects and the store -/

theorem objGet_append (l1 l2 : List (String × JValue)) (k : String) :
    objGet (l1 ++ l2) k =
      (match objGet l1 k with | some v => some v | none => objGet l2 k) := by
  induction l1 with
  | nil => simp [objGet]
  | cons hd tl ih =>
      obtain ⟨k', v⟩ := hd
      by_cases hk : k' = k
      · simp [objGet, hk]
      · simp [objGet, hk, ih]

theorem objGet_map_override (p u : List (String × JValue)) (k : String) :
    objGet (p.map (fun kv =>
        match objGet u kv.1 with | some v => (kv.1, v) | none => kv)) k =
      (match objGet p k, objGet u k with
       | some _, some w => some w
       | some v, none => some v
       | none, _ => none) := by
  induction p with
  | nil => simp [objGet]
  | cons hd tl ih =>
      obtain ⟨k', v⟩ := hd
      by_cases hk : k' = k
      · cases hu : objGet u k' <;> simp [objGet, hk, hu] <;> rw [← hk] <;> simp [hu]
      · cases hu : objGet u k' <;> simp [objGet, hk, hu, ih]

theorem objGet_filter_key (P : String → Bool) (u : List (String × JValue)) (k : String) :
    objGet (u.filter (fun kv => P kv.1)) k = if P k then objGet u k else none := by
  induction u with
  | nil => simp [objGet]
  | cons hd tl ih =>
      obtain ⟨k', v⟩ := hd
      by_cases hk : k' = k
      · subst hk; cases hP : P k' <;> simp [List.filter_cons, objGet, hP, ih]
      · cases hP : P k' <;> simp [List.filter_cons, objGet, hk, hP, ih]

theorem mergeFields_objGet (p u : List (String × JValue)) (k : String) :
    objGet (mergeFields p u) k =
      (match objGet u k with | some v => some v | none => objGet p k) := by
  unfold mergeFields
  rw [objGet_append, objGet_map_override,
      objGet_filter_key (fun s => (objGet p s).isNone) u k]
  cases hp : objGet p k <;> cases hu : objGet u k <;> simp [hp, hu]

theorem redisGet_redisSet_self (st : Store) (k : String) (v : JValue) :
    redisGet (redisSet st k v) k = some v := by
  induction st with
  | nil => simp [redisSet, redisGet]
  | cons hd tl ih =>
      obtain ⟨k', v'⟩ := hd
      by_cases hk : k' = k
      · simp [redisSet, hk, redisGet]
      · simp [redisSet, hk, redisGet, ih]

theorem redisGet_filter_self (st : Store) (k : String) :
    redisGet (st.filter (fun kv => kv.1 != k)) k = none := by
  induction st with
  | nil => simp [redisGet]
  | cons hd tl ih =>
      obtain ⟨k', v'⟩ := hd
      by_cases hk : k' = k
      · simp [List.filter_cons, hk, ih]
      · simp [List.filter_cons, redisGet, hk, ih]

/-! ### Bounds and injectivity of the digest's hex rendering -/

def bounded32 (h : Sha1State) : Prop :=
  h.1 < pow32 ∧ h.2.1 < pow32 ∧ h.2.2.1 < pow32 ∧ h.2.2.2.1 < pow32 ∧
    h.2.2.2.2 < pow32

theorem sha1Compress_bounded (c : List Nat) (h : Sha1State) :
    bounded32 (sha1Compress c h) := by
  simp only [sha1Compress, bounded32, pow32]
  refine ⟨?_, ?_, ?_, ?_, ?_⟩ <;> exact Nat.mod_lt _ (by norm_num)

theorem sha1Loop_bounded (fuel : Nat) :
    ∀ (msg : List Nat) (h : Sha1State), bounded32 h →
      bounded32 (sha1Loop fuel msg h) := by
  induction fuel with
  | zero => intro msg h hb; cases msg <;> simpa [sha1Loop]
  | succ n ih =>
      intro msg h hb
      cases msg with
      | nil => simpa [sha1Loop]
      | cons b rest =>
          simpa [sha1Loop] using ih _ _ (sha1Compress_bounded _ _)

theorem sha1Tuple_bounded (m : List Nat) : bounded32 (sha1Tuple m) := by
  unfold sha1Tuple
  exact sha1Loop_bounded _ _ _ (by norm_num [bounded32, sha1Init, pow32])

theorem hexDigitChar_inj :
    ∀ a < 16, ∀ b < 16, hexDigitChar a = hexDigitChar b → a = b := by decide

theorem toHex8_inj (a b : Nat) (ha : a < pow32) (hb : b < pow32)
    (h : toHex8 a = toHex8 b) : a = b := by
  simp only [toHex8, List.cons.injEq, and_true] at h
  obtain ⟨h1, h2, h3, h4, h5, h6, h7, h8⟩ := h
  have e1 := hexDigitChar_inj _ (Nat.mod_lt _ (by norm_num)) _ (Nat.mod_lt _ (by norm_num)) h1
  have e2 := hexDigitChar_inj _ (Nat.mod_lt _ (by norm_num)) _ (Nat.mod_lt _ (by norm_num)) h2
  have e3 := hexDigitChar_inj _ (Nat.mod_lt _ (by norm_num)) _ (Nat.mod_lt _ (by norm_num)) h3
  have e4 := hexDigitChar_inj _ (Nat.mod_lt _ (by norm_num)) _ (Nat.mod_lt _ (by norm_num)) h4
  have e5 := hexDigitChar_inj _ (Nat.mod_lt _ (by norm_num)) _ (Nat.mod_lt _ (by norm_num)) h5
  have e6 := hexDigitChar_inj _ (Nat.mod_lt _ (by norm_num)) _ (Nat.mod_lt _ (by norm_num)) h6
  have e7 := hexDigitChar_inj _ (Nat.mod_lt _ (by norm_num)) _ (Nat.mod_lt _ (by norm_num)) h7
  have e8 := hexDigitChar_inj _ (Nat.mod_lt _ (by norm_num)) _ (Nat.mod_lt _ (by norm_num)) h8
  simp only [pow32] at ha hb
  omega

theorem digestHex_inj (x y : Sha1State) (hx : bounded32 x) (hy : bounded32 y)
    (h : digestHex x = digestHex y) : x = y := by
  obtain ⟨x1, x2, x3, x4, x5⟩ := x
  obtain ⟨y1, y2, y3, y4, y5⟩ := y
  obtain ⟨hx1, hx2, hx3, hx4, hx5⟩ := hx
  obtain ⟨hy1, hy2, hy3, hy4, hy5⟩ := hy
  unfold digestHex at h
  have hdata := congrArg String.data h
  have len8 : ∀ z : Nat, (toHex8 z).length = 8 := by intro z; simp [toHex8]
  obtain ⟨hdata, e5⟩ := List.append_inj hdata (by simp [len8])
  obtain ⟨hdata, e4⟩ := List.append_inj hdata (by simp [len8])
  obtain ⟨hdata, e3⟩ := List.append_inj hdata (by simp [len8])
  obtain ⟨e1, e2⟩ := List.append_inj hdata (by simp [len8])
  simp only [Prod.mk.injEq]
  exact ⟨toHex8_inj _ _ hx1 hy1 e1, toHex8_inj _ _ hx2 hy2 e2,
         toHex8_inj _ _ hx3 hy3 e3, toHex8_inj _ _ hx4 hy4 e4,
         toHex8_inj _ _ hx5 hy5 e5⟩

/-- Distinct SHA-1 digests render to distinct tag strings. -/
theorem generateETag_ne_of_digest_ne (s1 s2 : String)
    (h : sha1Tuple (strBytes s1) ≠ sha1Tuple (strBytes s2)) :
    generateETag s1 ≠ generateETag s2 := by
  intro he
  exact h (digestHex_inj _ _ (sha1Tuple_bounded _) (sha1Tuple_bounded _) he)

/-! ### C1: Replace (PUT) -/

/-- C1, counterexample: the claim's branch structure is false as stated,
because the PUT handler validates the body (line 85) before consulting the
store: with an invalid body and an absent key the response is 400, not the
claimed 404. -/
theorem put_validation_precedes_404_cex :
    ¬ (∀ (st : Store) (k : String) (im : Option String) (d : JValue),
        redisGet st k = none → (putPlan st k im d).1.status = 404) := by
  intro h
  have h404 := h [] ("k1") (some ("t")) JValue.null rfl
  have h400 : (putPlan [] ("k1") (some ("t")) JValue.null).1.status = 400 := rfl
  omega

/-- C1 (amended): for every PUT on key `k` with header `If-Match: T` whose
body passes schema validation (otherwise the handler answers 400 before
consulting the store): if no record exists the response is 404; else if the
stored record's tag differs from `T` the response is 412 and the store is
unchanged; else the record is overwritten, a new tag is computed from the new
content, and the response is 200 carrying the new tag, which differs from `T`
whenever the SHA-1 digest of the new serialized content differs from the
digest of the old one (distinct contents with colliding digests would yield
an unchanged tag: the tag generator is not injective). -/
theorem put_replace_spec (st : Store) (k : String) (im : Option String)
    (d : JValue) (hv : validatePlan d = true) :
    (redisGet st k = none →
      putPlan st k im d =
        ({ status := 404, etag := none,
           body := some (RespBody.message ("Not Found: Plan does not exist")) }, st)) ∧
    (∀ old, redisGet st k = some old →
      im ≠ some (generateETag (jsonStringify old)) →
      putPlan st k im d =
        ({ status := 412, etag := none,
           body := some (RespBody.errMessage ("Precondition Failed: ETag does not match")) }, st)) ∧
    (∀ old, redisGet st k = some old →
      im = some (generateETag (jsonStringify old)) →
      putPlan st k im d =
        ({ status := 200, etag := some (generateETag (jsonStringify d)),
           body := some (RespBody.messageData ("Plan replaced") d) },
         redisSet st k d) ∧
      (sha1Tuple (strBytes (jsonStringify d)) ≠
          sha1Tuple (strBytes (jsonStringify old)) →
        some (generateETag (jsonStringify d)) ≠ im)) := by
  refine ⟨?_, ?_, ?_⟩
  · intro hget
    simp [putPlan, hv, hget]
  · intro old hget hne
    simp [putPlan, hv, hget, hne]
  · intro old hget him
    subst him
    refine ⟨by simp [putPlan, hv, hget], ?_⟩
    intro hdig he
    have := Option.some.inj he
    exact generateETag_ne_of_digest_ne _ _ hdig this

/-- C1, witness: a concrete optimistic replace succeeding with the stored
tag. -/
theorem put_replace_spec_witness :
    validatePlan planEx2 = true ∧
    putPlan [(planKeyEx, planEx)] planKeyEx
        (some (generateETag (jsonStringify planEx))) planEx2 =
      ({ status := 200, etag := some (generateETag (jsonStringify planEx2)),
         body := some (RespBody.messageData ("Plan replaced") planEx2) },
       [(planKeyEx, planEx2)]) :=
  ⟨rfl, ((put_replace_spec [(planKeyEx, planEx)] planKeyEx
      (some (generateETag (jsonStringify planEx))) planEx2 rfl).2.2
      planEx rfl rfl).1⟩

/-! ### C2: Delete -/

/-- C2, counterexample: the DELETE handler never reads the `If-Match`
header (it reads `if-none-match`, line 185), so a delete with a mismatched
`If-Match` succeeds with 204 instead of the claimed 412. -/
theorem delete_ignores_ifmatch_cex :
    ¬ (∀ (st : Store) (k : String) (im inm : Option String) (d : JValue),
        redisGet st k = some d → im.isSome = true →
        im ≠ some (generateETag (jsonStringify d)) →
        (deletePlan st k im inm).1.status = 412) := by
  intro h
  have h412 := h [(planKeyEx, planEx)] planKeyEx (some ("bogus")) none planEx
      rfl rfl (by decide)
  have h204 : (deletePlan [(planKeyEx, planEx)] planKeyEx (some ("bogus")) none).1.status = 204 :=
    rfl
  omega

/-- C2 (amended): for every DELETE on key `k`: if no record exists the
response is 404; the optional precondition the handler honours is the
`If-None-Match` header (not `If-Match`, which is ignored): if it is supplied
and differs from the stored record's tag the response is 412 and the record
is not deleted; otherwise the record is deleted and the response is 204 with
an empty body. -/
theorem delete_spec (st : Store) (k : String) (im inm : Option String) :
    (redisGet st k = none →
      deletePlan st k im inm =
        ({ status := 404, etag := none,
           body := some (RespBody.message ("Not Found: Plan not found")) }, st)) ∧
    (∀ d, redisGet st k = some d → inm.isSome = true →
      inm ≠ some (generateETag (jsonStringify d)) →
      deletePlan st k im inm =
        ({ status := 412, etag := none,
           body := some (RespBody.errMessage ("Precondition Failed: ETag does not match")) }, st)) ∧
    (∀ d, redisGet st k = some d →
      (inm = none ∨ inm = some (generateETag (jsonStringify d))) →
      deletePlan st k im inm =
        ({ status := 204, etag := none, body := none },
         st.filter (fun kv => kv.1 != k)) ∧
      redisGet (deletePlan st k im inm).2 k = none) := by
  refine ⟨?_, ?_, ?_⟩
  · intro hget
    simp [deletePlan, hget]
  · intro d hget hsome hne
    simp [deletePlan, hget, hsome, hne]
  · intro d hget hc
    have hdone : deletePlan st k im inm =
        ({ status := 204, etag := none, body := none },
         st.filter (fun kv => kv.1 != k)) := by
      rcases hc with hnone | hsome
      · subst hnone
        simp [deletePlan, hget, redisDel]
      · subst hsome
        simp [deletePlan, hget, redisDel]
    exact ⟨hdone, by rw [hdone]; exact redisGet_filter_self st k⟩

/-- C2, witness: a plain delete succeeds with 204 and removes the record; a
delete with a mismatched `If-None-Match` fails with 412. -/
theorem delete_spec_witness :
    deletePlan [(planKeyEx, planEx)] planKeyEx none none =
      ({ status := 204, etag := none, body := none }, []) ∧
    deletePlan [(planKeyEx, planEx)] planKeyEx none (some ("nope")) =
      ({ status := 412, etag := none,
         body := some (RespBody.errMessage ("Precondition Failed: ETag does not match")) },
       [(planKeyEx, planEx)]) :=
  ⟨((delete_spec [(planKeyEx, planEx)] planKeyEx none none).2.2 planEx rfl
      (Or.inl rfl)).1,
   (delete_spec [(planKeyEx, planEx)] planKeyEx none (some ("nope"))).2.1 planEx
      rfl rfl (by decide)⟩

/-! ### C3: PATCH atomicity on validation failure -/

/-- C3 (confirmed): a PATCH on an existing key with the matching `If-Match`
tag whose shallow-merged result fails schema validation answers 400 and
leaves the store untouched — validation (line 158) runs strictly before the
store write (line 162), so a subsequent GET still returns the pre-PATCH
document under its old tag. -/
theorem patch_atomic_validation_spec (st : Store) (k : String) (P u : JValue)
    (hget : redisGet st k = some P)
    (hbad : validatePlan (jsMerge P u) = false) :
    patchPlan st k (some (generateETag (jsonStringify P))) u =
      ({ status := 400, etag := none, body := some RespBody.errors }, st) ∧
    getPlan st k none =
      ({ status := 200, etag := some (generateETag (jsonStringify P)),
         body := some (RespBody.doc P) }, st) := by
  constructor
  · simp [patchPlan, hget, hbad]
  · simp [getPlan, hget]

/-- C3, witness: patching `planEx` so that `planType` becomes a number is
rejected with 400 and the store keeps `planEx`. -/
theorem patch_atomic_validation_spec_witness :
    patchPlan [(planKeyEx, planEx)] planKeyEx
        (some (generateETag (jsonStringify planEx))) badPatchEx =
      ({ status := 400, etag := none, body := some RespBody.errors },
       [(planKeyEx, planEx)]) :=
  (patch_atomic_validation_spec [(planKeyEx, planEx)] planKeyEx planEx
      badPatchEx rfl rfl).1

/-! ### C4: Create (POST) -/

/-- C4, counterexample: the 409 response of the POST handler (lines 66-68)
returns the existing record in its body but sets no `ETag` header, so the
claim that it returns the existing record's tag is false. -/
theorem post_conflict_no_etag_cex :
    ¬ (∀ (st : Store) (k : String) (d ex : JValue),
        validatePlan d = true → getPlanObjectId d = some k →
        redisGet st k = some ex →
        ∃ r st', postPlan st d = some (r, st') ∧
          r.etag = some (generateETag (jsonStringify ex))) := by
  intro h
  obtain ⟨r, st', heq, hetag⟩ :=
    h [(planKeyEx, planEx)] planKeyEx planEx planEx rfl rfl rfl
  have hcalc : postPlan [(planKeyEx, planEx)] planEx =
      some ({ status := 409, etag := none,
              body := some (RespBody.messageData ("Conflict: Plan already exists") planEx) },
            [(planKeyEx, planEx)]) := rfl
  rw [hcalc] at heq
  simp only [Option.some.injEq, Prod.mk.injEq] at heq
  obtain ⟨hr, -⟩ := heq
  rw [← hr] at hetag
  simp at hetag

/-- C4 (amended): for every POST of a valid document whose derived key
already has a stored record, the response is 409 returning the existing
record in the body (but no `ETag` header) and the store is unchanged; if no
record exists for the derived key, the document is stored and the response
is 201 carrying the tag computed from the new content. -/
theorem post_create_spec (st : Store) (k : String) (d : JValue)
    (hv : validatePlan d = true) (hk : getPlanObjectId d = some k) :
    (∀ ex, redisGet st k = some ex →
      postPlan st d =
        some ({ status := 409, etag := none,
                body := some (RespBody.messageData ("Conflict: Plan already exists") ex) },
              st)) ∧
    (redisGet st k = none →
      postPlan st d =
        some ({ status := 201, etag := some (generateETag (jsonStringify d)),
                body := some (RespBody.messageData ("Plan created") d) },
              redisSet st k d)) := by
  constructor
  · intro ex hget
    simp [postPlan, hv, hk, hget]
  · intro hget
    simp [postPlan, hv, hk, hget]

/-- C4, witness: creating `planEx` on the empty store answers 201 with its
content tag; re-posting it answers 409 with the stored record and no tag. -/
theorem post_create_spec_witness :
    postPlan [] planEx =
      some ({ status := 201, etag := some (generateETag (jsonStringify planEx)),
              body := some (RespBody.messageData ("Plan created") planEx) },
            [(planKeyEx, planEx)]) ∧
    postPlan [(planKeyEx, planEx)] planEx =
      some ({ status := 409, etag := none,
              body := some (RespBody.messageData ("Conflict: Plan already exists") planEx) },
            [(planKeyEx, planEx)]) :=
  ⟨(post_create_spec [] planKeyEx planEx rfl rfl).2 rfl,
   (post_create_spec [(planKeyEx, planEx)] planKeyEx planEx rfl rfl).1 planEx rfl⟩

/-! ### C5: Read (GET) -/

/-- C5 (confirmed): a GET on an existing key answers 304 with no body when
`If-None-Match` equals the stored record's tag, otherwise 200 with the
stored document as body and the current tag in the `ETag` header; a GET on
an absent key answers 404. -/
theorem get_read_spec (st : Store) (k : String) (inm : Option String) :
    (redisGet st k = none →
      getPlan st k inm =
        ({ status := 404, etag := none,
           body := some (RespBody.message ("Not Found: Plan not found")) }, st)) ∧
    (∀ d, redisGet st k = some d →
      inm = some (generateETag (jsonStringify d)) →
      getPlan st k inm = ({ status := 304, etag := none, body := none }, st)) ∧
    (∀ d, redisGet st k = some d →
      inm ≠ some (generateETag (jsonStringify d)) →
      getPlan st k inm =
        ({ status := 200, etag := some (generateETag (jsonStringify d)),
           body := some (RespBody.doc d) }, st)) := by
  refine ⟨?_, ?_, ?_⟩
  · intro hget
    simp [getPlan, hget]
  · intro d hget him
    subst him
    simp [getPlan, hget]
  · intro d hget hne
    simp [getPlan, hget, hne]

/-- C5, witness: a conditional GET with the current tag yields 304; an
unconditional GET yields 200 with the document; a GET on the empty store
yields 404. -/
theorem get_read_spec_witness :
    getPlan [(planKeyEx, planEx)] planKeyEx
        (some (generateETag (jsonStringify planEx))) =
      ({ status := 304, etag := none, body := none }, [(planKeyEx, planEx)]) ∧
    getPlan [(planKeyEx, planEx)] planKeyEx none =
      ({ status := 200, etag := some (generateETag (jsonStringify planEx)),
         body := some (RespBody.doc planEx) }, [(planKeyEx, planEx)]) ∧
    getPlan [] planKeyEx none =
      ({ status := 404, etag := none,
         body := some (RespBody.message ("Not Found: Plan not found")) }, []) :=
  ⟨(get_read_spec [(planKeyEx, planEx)] planKeyEx
      (some (generateETag (jsonStringify planEx)))).2.1 planEx rfl rfl,
   (get_read_spec [(planKeyEx, planEx)] planKeyEx none).2.2 planEx rfl (by simp),
   (get_read_spec [] planKeyEx none).1 rfl⟩

/-! ### C6: Create-then-read round trip -/

/-- C6 (confirmed): after a successful POST of a valid document `d`
(201 with tag `T = generateETag (jsonStringify d)`), an unconditional GET on
`d`'s derived key returns the same document and the same tag `T`. -/
theorem create_then_read_spec (st : Store) (k : String) (d : JValue)
    (hv : validatePlan d = true) (hk : getPlanObjectId d = some k)
    (habs : redisGet st k = none) :
    postPlan st d =
      some ({ status := 201, etag := some (generateETag (jsonStringify d)),
              body := some (RespBody.messageData ("Plan created") d) },
            redisSet st k d) ∧
    getPlan (redisSet st k d) k none =
      ({ status := 200, etag := some (generateETag (jsonStringify d)),
         body := some (RespBody.doc d) }, redisSet st k d) := by
  constructor
  · simp [postPlan, hv, hk, habs]
  · simp [getPlan, redisGet_redisSet_self]

/-- C6, witness: POST `planEx` on the empty store, then GET its derived
key. -/
theorem create_then_read_spec_witness :
    postPlan [] planEx =
      some ({ status := 201, etag := some (generateETag (jsonStringify planEx)),
              body := some (RespBody.messageData ("Plan created") planEx) },
            [(planKeyEx, planEx)]) ∧
    getPlan [(planKeyEx, planEx)] planKeyEx none =
      ({ status := 200, etag := some (generateETag (jsonStringify planEx)),
         body := some (RespBody.doc planEx) }, [(planKeyEx, planEx)]) :=
  create_then_read_spec [] planKeyEx planEx rfl rfl rfl

/-! ### C7: Shallow-merge semantics of PATCH -/

/-- C7 (confirmed): the PATCH handler's merge `{ ...planData, ...updates }`
is shallow: on objects it yields an object that maps each top-level key to
the update's value when the update has the key and to the stored value
otherwise — so nested objects and arrays supplied by the update replace the
stored values wholesale and are never merged recursively. -/
theorem patch_shallow_merge_spec (p u : List (String × JValue)) (k : String) :
    jsMerge (JValue.obj p) (JValue.obj u) = JValue.obj (mergeFields p u) ∧
    objGet (mergeFields p u) k =
      (match objGet u k with | some v => some v | none => objGet p k) :=
  ⟨rfl, mergeFields_objGet p u k⟩

/-! ### C8: Determinism and purity of the tag generator -/

/-- C8 (confirmed): the tag computation reads nothing but its input bytes —
evaluated under any two ambient process states (clock, RNG seed, process
incarnation) it returns the same string, which is the value of the pure
function `generateETag`; hence equal inputs always yield byte-identical
tags, also across process restarts. -/
theorem tag_deterministic_pure (σ1 σ2 : ProcessState) (b : String) :
    generateETagIn σ1 b = generateETagIn σ2 b ∧
    generateETagIn σ1 b = generateETag b :=
  ⟨rfl, rfl⟩

/-! ### C9: Delete of an absent key -/

/-- C9 (confirmed): a DELETE on a key with no stored record answers 404
(whatever conditional headers the request carries), leaves the store as it
is, and in particular never answers 204. -/
theorem delete_absent_spec (st : Store) (k : String) (im inm : Option String)
    (h : redisGet st k = none) :
    deletePlan st k im inm =
      ({ status := 404, etag := none,
         body := some (RespBody.message ("Not Found: Plan not found")) }, st) ∧
    (deletePlan st k im inm).1.status ≠ 204 := by
  have hmain : deletePlan st k im inm =
      ({ status := 404, etag := none,
         body := some (RespBody.message ("Not Found: Plan not found")) }, st) := by
    simp [deletePlan, h]
  exact ⟨hmain, by rw [hmain]; simp⟩

/-- C9, witness: deleting from the empty store, with and without an
`If-Match` header. -/
theorem delete_absent_spec_witness :
    deletePlan [] planKeyEx (some ("t")) none =
      ({ status := 404, etag := none,
         body := some (RespBody.message ("Not Found: Plan not found")) }, []) ∧
    deletePlan [] planKeyEx none none =
      ({ status := 404, etag := none,
         body := some (RespBody.message ("Not Found: Plan not found")) }, []) :=
  ⟨(delete_absent_spec [] planKeyEx (some ("t")) none rfl).1,
   (delete_absent_spec [] planKeyEx none none rfl).1⟩

/-! ### C10: Missing If-Match on PUT and PATCH -/

/-- C10, counterexample: a PUT on an existing key with no `If-Match` header
is NOT always answered 412 — the handler validates the body first (line 85),
so an invalid body draws 400 before the precondition is consulted. -/
theorem put_missing_ifmatch_invalid_body_cex :
    ¬ (∀ (st : Store) (k : String) (d : JValue),
        (redisGet st k).isSome = true → (putPlan st k none d).1.status = 412) := by
  intro h
  have h412 := h [(planKeyEx, planEx)] planKeyEx JValue.null rfl
  have h400 : (putPlan [(planKeyEx, planEx)] planKeyEx none JValue.null).1.status = 400 :=
    rfl
  omega

/-- C10 (amended): on an existing key, a request carrying no `If-Match`
header draws 412 with the store unchanged — unconditionally for PATCH, and
for PUT provided the body passes schema validation (PUT validates before the
precondition check and answers 400 otherwise, again leaving the store
unchanged).  The absent header can never equal the stored record's tag, so
the rule is enforced through the same mismatch branch as a wrong tag. -/
theorem missing_ifmatch_spec (st : Store) (k : String) (d : JValue) :
    (∀ ex, redisGet st k = some ex → validatePlan d = true →
      putPlan st k none d =
        ({ status := 412, etag := none,
           body := some (RespBody.errMessage ("Precondition Failed: ETag does not match")) }, st)) ∧
    (∀ ex, redisGet st k = some ex →
      patchPlan st k none d =
        ({ status := 412, etag := none,
           body := some (RespBody.errMessage ("Precondition Failed: ETag does not match")) }, st)) ∧
    (validatePlan d = false →
      putPlan st k none d =
        ({ status := 400, etag := none, body := some RespBody.errors }, st)) := by
  refine ⟨?_, ?_, ?_⟩
  · intro ex hget hv
    simp [putPlan, hv, hget]
  · intro ex hget
    simp [patchPlan, hget]
  · intro hbad
    simp [putPlan, hbad]

/-- C10, witness: on a store holding `planEx`, a header-less PUT of a valid
body and a header-less PATCH draw 412; a header-less PUT of an invalid body
draws 400. -/
theorem missing_ifmatch_spec_witness :
    putPlan [(planKeyEx, planEx)] planKeyEx none planEx2 =
      ({ status := 412, etag := none,
         body := some (RespBody.errMessage ("Precondition Failed: ETag does not match")) },
       [(planKeyEx, planEx)]) ∧
    patchPlan [(planKeyEx, planEx)] planKeyEx none badPatchEx =
      ({ status := 412, etag := none,
         body := some (RespBody.errMessage ("Precondition Failed: ETag does not match")) },
       [(planKeyEx, planEx)]) ∧
    putPlan [(planKeyEx, planEx)] planKeyEx none JValue.null =
      ({ status := 400, etag := none, body := some RespBody.errors },
       [(planKeyEx, planEx)]) :=
  ⟨(missing_ifmatch_spec [(planKeyEx, planEx)] planKeyEx planEx2).1 planEx rfl rfl,
   (missing_ifmatch_spec [(planKeyEx, planEx)] planKeyEx badPatchEx).2.1 planEx rfl,
   (missing_ifmatch_spec [(planKeyEx, planEx)] planKeyEx JValue.null).2.2 rfl⟩

end PlanApi
